import Mathlib

/-!
# recepie-parser: the request handler and its leaf functions

A shallow embedding of `server.go` and `main.go`.

* Go strings are Lean strings. The only separator ever searched for is the ASCII
  text `"Bearer "`, for which searching bytes and searching characters agree.
* An `error` value is the text of its `Error()`; `none` is the nil error.
* Everything outside the repository that the handler calls (the JWT library, the
  JSON decoder, the HTTP client, the sanitizer policy, the generative-AI client)
  is a field of `World`: one answer per call, chosen by the environment.
* `recepieHandler` returns the final `ResponseWriter`, the chronological list of
  calls and log lines it made, and how it ended (return, panic, process exit).
-/

set_option autoImplicit false

namespace Recepie

/-! ## Go standard library: `strings.Split` -/

/-- First occurrence of `sep` in `s`: the text before it and the text after it
(`strings.Index` followed by the two slicings of `genSplit`), `none` when `sep`
does not occur. -/
def cut (sep : List Char) : List Char → Option (List Char × List Char)
  | [] => if sep = [] then some ([], []) else none
  | c :: cs =>
    if sep.isPrefixOf (c :: cs) then some ([], (c :: cs).drop sep.length)
    else (cut sep cs).map (fun p => (c :: p.1, p.2))

/-- The loop of `genSplit`: at most `n` cuts, then the rest of the text is the
last piece. -/
def splitLoop (sep : List Char) : Nat → List Char → List (List Char)
  | 0, s => [s]
  | n + 1, s =>
    match cut sep s with
    | none => [s]
    | some (a, b) => a :: splitLoop sep n b

/-- Pieces of `s` between the non-overlapping occurrences of `sep`, left to right;
an empty `sep` explodes `s` into its characters. A non-empty `sep` is cut at most
`s.length` times, every cut consuming at least one character. -/
def splitChars (s sep : List Char) : List (List Char) :=
  if sep = [] then s.map (fun c => [c]) else splitLoop sep s.length s

/-- Go `strings.Split(s, sep)`. -/
def Split (s sep : String) : List String :=
  (splitChars s.data sep.data).map String.mk

/-! ## Data model -/

/-- A Go `error`, carried as the text of its `Error()`. -/
abbrev GoError := String

structure SupabaseConfig where
  JwtSecret : String
  deriving DecidableEq, Repr

structure GoogleAIConfig where
  APIKey : String
  deriving DecidableEq, Repr

structure ServerConfig where
  Host : String
  Port : String
  deriving DecidableEq, Repr

structure Config where
  Supabase : SupabaseConfig
  GoogleAI : GoogleAIConfig
  Server : ServerConfig
  deriving DecidableEq, Repr

/-- The `server` struct; `serveMux` only routes to `recepieHandler` and `logf` is
`log.Printf`, recorded as `Event.logf`. -/
structure server where
  config : Config
  deriving DecidableEq, Repr

structure RecepieParams where
  Url : String
  deriving DecidableEq, Repr

/-- An inbound `http.Request`: what the handler reads of it. -/
structure Request where
  Method : String
  Header : List (String × List String)
  Body : String
  deriving DecidableEq, Repr

/-- Go `http.Header.Get`: the first value stored under the key, `""` when there is
none. -/
def HeaderGet (h : List (String × List String)) (key : String) : String :=
  match h.lookup key with
  | some (v :: _) => v
  | _ => ""

/-- An outbound `http.Response` as `fetchHtml` sees it: the status code and what
`io.ReadAll(resp.Body)` gives. -/
structure Response where
  StatusCode : Int
  Body : Except GoError String

def StatusOK : Int := 200
def StatusBadRequest : Int := 400
def StatusUnauthorized : Int := 401
def StatusMethodNotAllowed : Int := 405
def StatusInternalServerError : Int := 500

/-- A `genai.Part`. `Other` stands for every kind besides text and file data
(blob, function call, ...) and carries the text `%v` prints for it. -/
inductive Part where
  | Text (s : String)
  | FileData (MIMEType URI : String)
  | Other (shown : String)
  deriving DecidableEq, Repr

/-- Go `fmt.Sprintf("%v", part)`: a `genai.Text` is a string and prints as itself,
a `genai.FileData` prints as the struct of its two fields. -/
def SprintfV : Part → String
  | .Text s => s
  | .FileData m u => "\x7b" ++ m ++ " " ++ u ++ "\x7d"
  | .Other shown => shown

structure Content where
  Role : String
  Parts : List Part
  deriving DecidableEq, Repr

/-- A `genai.Candidate`; `Content` is a pointer in Go, `none` is nil. -/
structure Candidate where
  Content : Option Content
  deriving DecidableEq, Repr

structure GenerateContentResponse where
  Candidates : List Candidate
  deriving DecidableEq, Repr

inductive Schema where
  | TypeString
  | TypeArray (Items : Schema)
  | TypeObject (Properties : List (String × Schema)) (Required : List String)

structure GenerativeModel where
  name : String
  Temperature : ℚ
  TopK : Int
  TopP : ℚ
  MaxOutputTokens : Int
  ResponseMIMEType : String
  ResponseSchema : Option Schema

structure ChatSession where
  model : GenerativeModel
  History : List Content

/-- A `genai.Client`, known by the API key it was made with. -/
structure Client where
  APIKey : String
  deriving DecidableEq, Repr

structure UploadFileOptions where
  DisplayName : String
  MIMEType : String
  deriving DecidableEq, Repr

structure File where
  Name : String
  URI : String
  deriving DecidableEq, Repr

/-- The collaborators outside the repository, one answer per call.

* `jwtParse token key`: the error of `jwt.Parse(token, jwt.WithKey(jwa.HS256(), key))`.
* `jsonDecode body`: `json.NewDecoder(body).Decode(&params)`.
* `httpGet url`: `http.Get(url)`; an error is a transport failure, never a status.
* `sanitize`: `bm.Sanitize`, the bluemonday UGC policy.
* `newClient apiKey`: `genai.NewClient`.
* `uploadFile client name content options`: `client.UploadFile`, the Go pair
  `(*File, error)` as it is; the library returns a nil file with an error.
* `sendMessage session part`: `session.SendMessage`. -/
structure World where
  jwtParse : String → String → Option GoError
  jsonDecode : String → Except GoError RecepieParams
  httpGet : String → Except GoError Response
  sanitize : String → String
  newClient : String → Except GoError Client
  uploadFile : Client → String → String → UploadFileOptions → Option File × Option GoError
  sendMessage : ChatSession → Part → Except GoError GenerateContentResponse

/-! ## The response writer of `net/http` -/

/-- An `http.ResponseWriter`: the header map, whether the status line has gone
out, the status and headers that went out with it, and the body written. -/
structure ResponseWriter where
  header : List (String × String)
  wroteHeader : Bool
  status : Int
  sentHeader : List (String × String)
  body : String
  deriving DecidableEq, Repr

namespace ResponseWriter

/-- The writer a handler is given. -/
def fresh : ResponseWriter :=
  { header := [], wroteHeader := false, status := 0, sentHeader := [], body := "" }

/-- Go `w.Header().Set(key, value)`. -/
def HeaderSet (w : ResponseWriter) (key value : String) : ResponseWriter :=
  { w with header := (key, value) :: w.header.filter (fun kv => kv.1 ≠ key) }

/-- Go `w.WriteHeader(code)`: the first call sends the status with the headers set
so far, a later call is superfluous and changes nothing. -/
def WriteHeader (w : ResponseWriter) (code : Int) : ResponseWriter :=
  if w.wroteHeader then w
  else { w with wroteHeader := true, status := code, sentHeader := w.header }

/-- Go `w.Write(b)`: sends status 200 first when no status has gone out. -/
def Write (w : ResponseWriter) (b : String) : ResponseWriter :=
  let w1 := if w.wroteHeader then w else w.WriteHeader StatusOK
  { w1 with body := w1.body ++ b }

end ResponseWriter

/-! ## Effects of one request -/

/-- What the handler did, in order: a log line, or a call to a later stage. -/
inductive Event where
  | logf (msg : String)
  | verifyToken (tokenString jwtKey : String)
  | decodeBody (body : String)
  | fetchHtml (url : String)
  | sanitize (html : String)
  | newClient (apiKey : String)
  | uploadFile (content : String)
  | sendMessage (msg : Part)
  | clientClose
  deriving DecidableEq, Repr

namespace Event

def isVerifyToken : Event → Bool
  | verifyToken _ _ => true
  | _ => false

def isDecodeBody : Event → Bool
  | decodeBody _ => true
  | _ => false

def isFetchHtml : Event → Bool
  | fetchHtml _ => true
  | _ => false

def isSanitize : Event → Bool
  | sanitize _ => true
  | _ => false

def isNewClient : Event → Bool
  | newClient _ => true
  | _ => false

def isUploadFile : Event → Bool
  | uploadFile _ => true
  | _ => false

def isSendMessage : Event → Bool
  | sendMessage _ => true
  | _ => false

end Event

/-- How the handler ended: it returned, it panicked (nil dereference, index out of
range), or `log.Fatalf` ended the whole process. -/
inductive Exit where
  | returned
  | panicked (msg : String)
  | fatal (msg : String)
  deriving DecidableEq, Repr

structure Result where
  w : ResponseWriter
  trace : List Event
  exit : Exit
  deriving DecidableEq, Repr

/-! ## `main.go` -/

/-- Go `fetchHtml`: the body and a nil error for status 200, `""` and an error
otherwise. -/
def fetchHtml (env : World) (url : String) : String × Option GoError :=
  match env.httpGet url with
  | .error err => ("", some err)
  | .ok resp =>
    if resp.StatusCode ≠ StatusOK then
      ("", some ("http status is not a success: " ++ toString resp.StatusCode))
    else
      match resp.Body with
      | .error err => ("", some err)
      | .ok body => (body, none)

/-- Go `verifyToken`: the error of parsing the token with the HS256 key. -/
def verifyToken (env : World) (tokenString jwtKey : String) : Option GoError :=
  match env.jwtParse tokenString jwtKey with
  | some err => some err
  | none => none

/-! ## `server.go` -/

/-- Go `initializeGenAiClient`: `.error msg` is `log.Fatalf` ending the process (the
`return nil, err` after it is never reached), `.ok` the pair it returns. -/
def initializeGenAiClient (env : World) (s : server) : Except String (Client × Option GoError) :=
  match env.newClient s.config.GoogleAI.APIKey with
  | .error err => .error ("Error creating client: " ++ err)
  | .ok client => .ok (client, none)

/-- Go `initializeGenAi`: the configured model and a nil error. -/
def initializeGenAi (_s : server) (_client : Client) : GenerativeModel × Option GoError :=
  ({ name := "gemini-1.5-flash"
     Temperature := 1
     TopK := 40
     TopP := 95 / 100
     MaxOutputTokens := 8192
     ResponseMIMEType := "application/json"
     ResponseSchema := some (.TypeObject
       [("ingredients", .TypeArray (.TypeObject
          [("name", .TypeString), ("amount", .TypeString)] ["name", "amount"]))] []) },
   none)

/-- Go `uploadToGemini`: the log lines it wrote and the URI it returned; on a nil
file `fileData.URI` panics, whatever was logged. -/
def uploadToGemini (env : World) (client : Client) (content : String) :
    List Event × Except String String :=
  let options : UploadFileOptions := { DisplayName := "recepieHtml", MIMEType := "text/plain" }
  let (fileData, err) := env.uploadFile client "" content options
  let logs : List Event :=
    match err with
    | some e => [Event.logf ("Error uploading file: " ++ e)]
    | none => []
  match fileData with
  | none => (logs, .error "runtime error: invalid memory address or nil pointer dereference")
  | some f => (logs, .ok f.URI)

def instructionText : String :=
  "Given this input HTML file, please extract the ingredients of the recepie and return them in a JSON format like:\n\n\x7b\n \"ingredients\": [\n  \x7b \"name\": \"sugar\", \"amount\": \"10g\" \x7d,\n  \x7b \"name\": \"salt\", \"amount\": \"125g\" \x7d,\n  \x7b \"name\": \"milk\", \"amount\": \"250ml\" \x7d,\n ]\n\x7d\n\nMake sure to convert imperial units to metrical units and that the response is in German.\nIf a ingredient is mentioned multiple times, add the amount of them together.\nFurther remove additional information of a recepie like water being warm or that flour is needed for something specific. I just want to have the ingredient names."

def exampleText : String :=
  "```json\n\x7b\"ingredients\": [\x7b\"amount\": \"150 ml\", \"name\": \"Wasser, warm\"\x7d, \x7b\"amount\": \"100 g\", \"name\": \"Weizenmehl (Typ 405)\"\x7d, \x7b\"amount\": \"7 g\", \"name\": \"Trockenhefe\"\x7d, \x7b\"amount\": \"230 g\", \"name\": \"Weizenmehl (Typ 405)\"\x7d, \x7b\"amount\": \"30 ml\", \"name\": \"Pflanzensahne\"\x7d, \x7b\"amount\": \"20 g\", \"name\": \"Zucker\"\x7d, \x7b\"amount\": \"2 TL\", \"name\": \"Backmalz\"\x7d, \x7b\"amount\": \"1 TL\", \"name\": \"Ascorbinsäure\"\x7d, \x7b\"amount\": \"½ TL\", \"name\": \"Salz\"\x7d, \x7b\"amount\": \"100 g\", \"name\": \"Alsan Bio oder Alsan S\"\x7d, \x7b\"amount\": \"50 g\", \"name\": \"Alsan Bio oder Alsan S\"\x7d, \x7b\"amount\": \"4 EL\", \"name\": \"Pflanzensahne\"\x7d, \x7b\"amount\": \"n. B.\", \"name\": \"Blaumohn\"\x7d, \x7b\"amount\": \"n. B.\", \"name\": \"Sesam\"\x7d, \x7b\"amount\": \"n. B.\", \"name\": \"Sonnenblumenkerne\"\x7d]\x7d\n\n```"

/-- The history the handler seeds the chat with. -/
def seedHistory (files : List String) : List Content :=
  [ { Role := "user", Parts := [Part.FileData "" (files.getD 0 ""), Part.Text instructionText] },
    { Role := "model", Parts := [Part.Text exampleText] } ]

/-- One turn of the loop over the response parts. -/
def writePart (w : ResponseWriter) (part : Part) : ResponseWriter :=
  ((w.HeaderSet "Content-Type" "application/json").WriteHeader StatusOK).Write (SprintfV part)

/-- Go `recepieHandler`. -/
def recepieHandler (env : World) (s : server) (w : ResponseWriter) (r : Request) : Result :=
  if r.Method ≠ "POST" then
    ⟨w.WriteHeader StatusMethodNotAllowed, [], .returned⟩
  else
  let authHeader := HeaderGet r.Header "Authorization"
  let tokenSplit := Split authHeader "Bearer "
  if tokenSplit.length ≠ 2 then
    ⟨w.WriteHeader StatusUnauthorized, [.logf "invalid auth header provided"], .returned⟩
  else
  let token := tokenSplit.getD 1 ""
  let t1 : List Event := [.verifyToken token s.config.Supabase.JwtSecret]
  match verifyToken env token s.config.Supabase.JwtSecret with
  | some err =>
    ⟨w.WriteHeader StatusUnauthorized, t1 ++ [.logf ("error in authorization: " ++ err)], .returned⟩
  | none =>
  let t2 := t1 ++ [.decodeBody r.Body]
  match env.jsonDecode r.Body with
  | .error err =>
    ⟨w.WriteHeader StatusBadRequest,
      t2 ++ [.logf ("error in decoding recepie params: " ++ err)], .returned⟩
  | .ok params =>
  let t3 := t2 ++ [.fetchHtml params.Url]
  match fetchHtml env params.Url with
  | (_, some err) =>
    ⟨w.WriteHeader StatusInternalServerError,
      t3 ++ [.logf ("error in fetching html: " ++ err)], .returned⟩
  | (html, none) =>
  let t4 := t3 ++ [.sanitize html]
  let html := env.sanitize html
  let t5 := t4 ++ [.newClient s.config.GoogleAI.APIKey]
  match initializeGenAiClient env s with
  | .error msg => ⟨w, t5, .fatal msg⟩
  | .ok (_, some err) =>
    ⟨w.WriteHeader StatusInternalServerError,
      t5 ++ [.logf ("error in initializing gen ai client: " ++ err)], .returned⟩
  | .ok (client, none) =>
  let t6 := t5 ++ [.uploadFile html]
  match uploadToGemini env client html with
  | (logs, .error p) => ⟨w, t6 ++ logs ++ [.clientClose], .panicked p⟩
  | (logs, .ok uri) =>
  let files := [uri]
  let t7 := t6 ++ logs
  match initializeGenAi s client with
  | (_, some err) =>
    ⟨w.WriteHeader StatusInternalServerError,
      t7 ++ [.logf ("error in creating the mode: " ++ err), .clientClose], .returned⟩
  | (model, none) =>
  let session : ChatSession := { model := model, History := seedHistory files }
  let t8 := t7 ++ [.sendMessage (Part.Text "Do")]
  match env.sendMessage session (Part.Text "Do") with
  | .error err => ⟨w, t8, .fatal ("Error sending message: " ++ err)⟩
  | .ok resp =>
  match resp.Candidates with
  | [] => ⟨w, t8 ++ [.clientClose], .panicked "runtime error: index out of range [0] with length 0"⟩
  | candidate :: _ =>
  match candidate.Content with
  | none =>
    ⟨w, t8 ++ [.clientClose], .panicked "runtime error: invalid memory address or nil pointer dereference"⟩
  | some content =>
    ⟨content.Parts.foldl writePart w, t8 ++ [.clientClose], .returned⟩

/-! ## Concrete inputs -/

def demoServer : server :=
  { config := { Supabase := ⟨"JWTSECRET"⟩, GoogleAI := ⟨"GOOGLEAPIKEY"⟩,
                Server := ⟨"0.0.0.0", "8080"⟩ } }

def saltJson : String :=
  "\x7b\"ingredients\":[\x7b\"name\":\"Salt\",\"amount\":\"5g\"\x7d]\x7d"

/-- A world in which the token `good` verifies, the body `page` decodes to the URL
`http://t/page`, that URL answers 200 with `<h1>OK</h1>`, `http://t/500` answers
500, `http://t/201` answers 201, and the collaborator returns the salt JSON. -/
def demoWorld : World :=
  { jwtParse := fun token _ => if token = "good" then none else some "bad token"
    jsonDecode := fun body =>
      if body = "page" then .ok ⟨"http://t/page"⟩
      else if body = "500" then .ok ⟨"http://t/500"⟩
      else .error "invalid character"
    httpGet := fun url =>
      if url = "http://t/page" then .ok ⟨200, .ok "<h1>OK</h1>"⟩
      else if url = "http://t/500" then .ok ⟨500, .ok "oops"⟩
      else if url = "http://t/201" then .ok ⟨201, .ok "made"⟩
      else .error "no such host"
    sanitize := fun html => html
    newClient := fun key => .ok ⟨key⟩
    uploadFile := fun _ _ _ _ => (some ⟨"files/1", "https://files/1"⟩, none)
    sendMessage := fun _ _ => .ok ⟨[⟨some ⟨"model", [Part.Text saltJson]⟩⟩]⟩ }

def postReq (auth body : String) : Request :=
  { Method := "POST", Header := [("Authorization", [auth])], Body := body }

/-- The demo world with a target whose connection breaks while the body is read:
status 200, then an error from `io.ReadAll`. -/
def bodyCutWorld : World :=
  { demoWorld with httpGet := fun _ => .ok ⟨200, .error "unexpected EOF"⟩ }

/-- The demo world with an upload that fails: a nil file and an error. -/
def uploadDownWorld : World :=
  { demoWorld with uploadFile := fun _ _ _ _ => (none, some "503 Service Unavailable") }

/-- The demo world with a model that fails to answer. -/
def modelDownWorld : World :=
  { demoWorld with sendMessage := fun _ _ => .error "deadline exceeded" }

/-! ## Facts about `Split` -/

/-- Go `strings.Split` on sample texts: no occurrence gives the text itself, each
occurrence separates two pieces, also at the start of the text. -/
theorem Split_samples :
    Split "" "Bearer " = [""]
    ∧ Split "Basic abc" "Bearer " = ["Basic abc"]
    ∧ Split "Bearer tok" "Bearer " = ["", "tok"]
    ∧ Split "xBearer tok" "Bearer " = ["x", "tok"]
    ∧ Split "Bearer Bearer tok" "Bearer " = ["", "", "tok"]
    ∧ Split "a,b,,c" "," = ["a", "b", "", "c"] := by
  decide

/-- Every cut at a non-empty separator leaves a strictly shorter rest. -/
theorem cut_length_lt (sep : List Char) (hsep : sep ≠ []) (s a b : List Char)
    (h : cut sep s = some (a, b)) : b.length < s.length := by
  have hpos : 0 < sep.length := List.length_pos.mpr hsep
  induction s generalizing a with
  | nil => simp [cut, hsep] at h
  | cons c cs ih =>
    unfold cut at h
    split at h
    · simp only [Option.some.injEq, Prod.mk.injEq] at h
      rw [← h.2, List.length_drop, List.length_cons]
      omega
    · cases hc : cut sep cs with
      | none => simp [hc] at h
      | some p =>
        obtain ⟨a1, b1⟩ := p
        simp only [hc, Option.map_some', Option.some.injEq, Prod.mk.injEq] at h
        have := ih a1 (by rw [hc, h.2])
        rw [List.length_cons]
        omega

/-- The loop never runs out of cuts: any two bounds at least the length of the
text give the same pieces. -/
theorem splitLoop_enough (sep : List Char) (hsep : sep ≠ []) (n m : Nat) (s : List Char)
    (hn : s.length ≤ n) (hm : s.length ≤ m) : splitLoop sep n s = splitLoop sep m s := by
  induction n generalizing m s with
  | zero =>
    have hs : s = [] := List.length_eq_zero.mp (Nat.le_zero.mp hn)
    subst hs
    cases m <;> simp [splitLoop, cut, hsep]
  | succ n ih =>
    cases m with
    | zero =>
      have hs : s = [] := List.length_eq_zero.mp (Nat.le_zero.mp hm)
      subst hs
      simp [splitLoop, cut, hsep]
    | succ m =>
      unfold splitLoop
      cases hc : cut sep s with
      | none => rfl
      | some p =>
        obtain ⟨a, b⟩ := p
        have hlt := cut_length_lt sep hsep s a b hc
        simp only
        rw [ih m b (by omega) (by omega)]

theorem splitLoop_ne_nil (sep : List Char) (n : Nat) (s : List Char) :
    splitLoop sep n s ≠ [] := by
  cases n with
  | zero => simp [splitLoop]
  | succ n =>
    unfold splitLoop
    split <;> simp

/-- A split that yields one piece yields the whole text. -/
theorem splitLoop_length_one (sep : List Char) (n : Nat) (s : List Char)
    (h : (splitLoop sep n s).length = 1) : splitLoop sep n s = [s] := by
  cases n with
  | zero => simp [splitLoop]
  | succ n =>
    unfold splitLoop at h ⊢
    split
    · rfl
    · rename_i a b hcut
      simp only [hcut, List.length_cons] at h
      have := splitLoop_ne_nil sep n b
      have : (splitLoop sep n b).length ≠ 0 := by simpa using this
      omega

/-- A text that starts with the separator is cut right there. -/
theorem cut_append_self (c : Char) (cs t : List Char) :
    cut (c :: cs) ((c :: cs) ++ t) = some ([], t) := by
  have hp : (c :: cs).isPrefixOf (c :: (cs ++ t)) = true := by
    rw [List.isPrefixOf_iff_prefix]
    exact ⟨t, rfl⟩
  have hd : List.drop (c :: cs).length (c :: (cs ++ t)) = t := by
    simp
  rw [List.cons_append]
  unfold cut
  rw [if_pos hp, hd]

/-- The pieces of `Bearer <token>`: an empty first piece, then the pieces of the
token. -/
theorem Split_bearer_append (token : String) :
    Split ("Bearer " ++ token) "Bearer "
      = "" :: (splitLoop "Bearer ".data (token.data.length + 6) token.data).map String.mk := by
  have hdata : ("Bearer " ++ token).data = ['B', 'e', 'a', 'r', 'e', 'r', ' '] ++ token.data := by
    rw [String.data_append]
  have hsep : "Bearer ".data = ['B', 'e', 'a', 'r', 'e', 'r', ' '] := rfl
  have hne : ¬ (['B', 'e', 'a', 'r', 'e', 'r', ' '] : List Char) = [] := by simp
  have hlen : (['B', 'e', 'a', 'r', 'e', 'r', ' '] ++ token.data).length
      = (token.data.length + 6) + 1 := by
    simp
  unfold Split splitChars
  rw [hdata, hsep, if_neg hne, hlen]
  unfold splitLoop
  rw [cut_append_self]
  rfl

/-- When `Bearer <token>` splits into two pieces, the second one is the token. -/
theorem Split_bearer_two (token : String)
    (h : (Split ("Bearer " ++ token) "Bearer ").length = 2) :
    Split ("Bearer " ++ token) "Bearer " = ["", token] := by
  rw [Split_bearer_append] at h ⊢
  have h1 : (splitLoop "Bearer ".data (token.data.length + 6) token.data).length = 1 := by
    simpa using h
  rw [splitLoop_length_one _ _ _ h1]
  rfl

/-! ## The handler, stage by stage -/

/-- C1: a request whose method is not POST is answered 405 with an empty body, and
the handler returns without a log line or a call to any later stage. -/
theorem method_not_post_405 (env : World) (s : server) (r : Request)
    (hm : r.Method ≠ "POST") :
    (recepieHandler env s .fresh r).w.status = 405
    ∧ (recepieHandler env s .fresh r).w.wroteHeader = true
    ∧ (recepieHandler env s .fresh r).w.body = ""
    ∧ (recepieHandler env s .fresh r).trace = []
    ∧ (recepieHandler env s .fresh r).exit = .returned := by
  simp [recepieHandler, hm, ResponseWriter.WriteHeader, ResponseWriter.fresh,
    StatusMethodNotAllowed]

theorem method_not_post_405_witness :
    (⟨"GET", [("Authorization", ["Bearer good"])], "page"⟩ : Request).Method ≠ "POST"
    ∧ (recepieHandler demoWorld demoServer .fresh
        ⟨"GET", [("Authorization", ["Bearer good"])], "page"⟩).w.status = 405
    ∧ (recepieHandler demoWorld demoServer .fresh
        ⟨"GET", [("Authorization", ["Bearer good"])], "page"⟩).trace = [] :=
  have h := method_not_post_405 demoWorld demoServer
    ⟨"GET", [("Authorization", ["Bearer good"])], "page"⟩ (by decide)
  ⟨by decide, h.1, h.2.2.2.1⟩

/-- C2: a POST whose Authorization header value is empty is answered 401 with an
empty body; neither verifyToken nor fetchHtml is called. -/
theorem no_auth_header_401 (env : World) (s : server) (r : Request)
    (hm : r.Method = "POST") (ha : HeaderGet r.Header "Authorization" = "") :
    (recepieHandler env s .fresh r).w.status = 401
    ∧ (recepieHandler env s .fresh r).w.wroteHeader = true
    ∧ (recepieHandler env s .fresh r).w.body = ""
    ∧ (recepieHandler env s .fresh r).trace.any Event.isVerifyToken = false
    ∧ (recepieHandler env s .fresh r).trace.any Event.isFetchHtml = false
    ∧ (recepieHandler env s .fresh r).exit = .returned := by
  have hs : Split "" "Bearer " = [""] := by decide
  simp [recepieHandler, hm, ha, hs, ResponseWriter.WriteHeader, ResponseWriter.fresh,
    StatusUnauthorized, Event.isVerifyToken, Event.isFetchHtml]

theorem no_auth_header_401_witness :
    (⟨"POST", [], "page"⟩ : Request).Method = "POST"
    ∧ HeaderGet (⟨"POST", [], "page"⟩ : Request).Header "Authorization" = ""
    ∧ (recepieHandler demoWorld demoServer .fresh ⟨"POST", [], "page"⟩).w.status = 401 :=
  ⟨by decide, by decide,
    (no_auth_header_401 demoWorld demoServer ⟨"POST", [], "page"⟩ (by decide) (by decide)).1⟩

/-- C3, as stated, fails: the header `xBearer good` does not begin with `Bearer `,
yet the handler passes `good` to verifyToken and, the token verifying, goes on to
answer 200. -/
theorem bearer_not_at_start_reaches_verifyToken :
    (postReq "xBearer good" "page").Method = "POST"
    ∧ HeaderGet (postReq "xBearer good" "page").Header "Authorization" = "xBearer good"
    ∧ "Bearer ".data.isPrefixOf "xBearer good".data = false
    ∧ Event.verifyToken "good" "JWTSECRET"
        ∈ (recepieHandler demoWorld demoServer .fresh (postReq "xBearer good" "page")).trace
    ∧ (recepieHandler demoWorld demoServer .fresh (postReq "xBearer good" "page")).w.status
        = 200 := by
  decide

/-- C3, amended: a POST whose Authorization header does not split on `Bearer ` into
exactly two pieces is answered 401, and verifyToken is not called. -/
theorem bad_split_401 (env : World) (s : server) (r : Request)
    (hm : r.Method = "POST")
    (hs : (Split (HeaderGet r.Header "Authorization") "Bearer ").length ≠ 2) :
    (recepieHandler env s .fresh r).w.status = 401
    ∧ (recepieHandler env s .fresh r).w.wroteHeader = true
    ∧ (recepieHandler env s .fresh r).trace.any Event.isVerifyToken = false
    ∧ (recepieHandler env s .fresh r).exit = .returned := by
  simp [recepieHandler, hm, hs, ResponseWriter.WriteHeader, ResponseWriter.fresh,
    StatusUnauthorized, Event.isVerifyToken]

theorem bad_split_401_witness :
    (postReq "Basic good" "page").Method = "POST"
    ∧ (Split (HeaderGet (postReq "Basic good" "page").Header "Authorization") "Bearer ").length
        ≠ 2
    ∧ (recepieHandler demoWorld demoServer .fresh (postReq "Basic good" "page")).w.status = 401
    ∧ (recepieHandler demoWorld demoServer .fresh (postReq "Basic good" "page")).trace.any
        Event.isVerifyToken = false :=
  have h := bad_split_401 demoWorld demoServer (postReq "Basic good" "page")
    (by decide) (by decide)
  ⟨by decide, by decide, h.1, h.2.2.1⟩

/-- C4: a POST with header `Bearer <token>` whose token verifyToken rejects is
answered 401 whatever the body; the body is not decoded and fetchHtml is not
called. -/
theorem rejected_token_401 (env : World) (s : server) (r : Request) (token : String)
    (hm : r.Method = "POST")
    (ha : HeaderGet r.Header "Authorization" = "Bearer " ++ token)
    (hv : verifyToken env token s.config.Supabase.JwtSecret ≠ none) :
    (recepieHandler env s .fresh r).w.status = 401
    ∧ (recepieHandler env s .fresh r).w.wroteHeader = true
    ∧ (recepieHandler env s .fresh r).w.body = ""
    ∧ (recepieHandler env s .fresh r).trace.any Event.isDecodeBody = false
    ∧ (recepieHandler env s .fresh r).trace.any Event.isFetchHtml = false
    ∧ (recepieHandler env s .fresh r).exit = .returned := by
  by_cases hl : (Split ("Bearer " ++ token) "Bearer ").length = 2
  · have h2 := Split_bearer_two token hl
    obtain ⟨err, herr⟩ := Option.ne_none_iff_exists'.mp hv
    simp [recepieHandler, hm, ha, h2, herr, ResponseWriter.WriteHeader, ResponseWriter.fresh,
      StatusUnauthorized, Event.isDecodeBody, Event.isFetchHtml]
  · simp [recepieHandler, hm, ha, hl, ResponseWriter.WriteHeader, ResponseWriter.fresh,
      StatusUnauthorized, Event.isDecodeBody, Event.isFetchHtml]

theorem rejected_token_401_witness :
    (postReq "Bearer forged" "not json").Method = "POST"
    ∧ HeaderGet (postReq "Bearer forged" "not json").Header "Authorization"
        = "Bearer " ++ "forged"
    ∧ verifyToken demoWorld "forged" demoServer.config.Supabase.JwtSecret ≠ none
    ∧ (recepieHandler demoWorld demoServer .fresh (postReq "Bearer forged" "not json")).w.status
        = 401 :=
  ⟨by decide, by decide, by decide,
    (rejected_token_401 demoWorld demoServer (postReq "Bearer forged" "not json") "forged"
      (by decide) (by decide) (by decide)).1⟩

/-- C5: a POST that passes token verification and whose body does not decode is
answered 400; fetchHtml, the sanitizer, the client construction, the upload and the
model are not called. -/
theorem undecodable_body_400 (env : World) (s : server) (r : Request)
    (pre token : String) (err : GoError)
    (hm : r.Method = "POST")
    (hs : Split (HeaderGet r.Header "Authorization") "Bearer " = [pre, token])
    (hv : verifyToken env token s.config.Supabase.JwtSecret = none)
    (hd : env.jsonDecode r.Body = .error err) :
    (recepieHandler env s .fresh r).w.status = 400
    ∧ (recepieHandler env s .fresh r).w.wroteHeader = true
    ∧ (recepieHandler env s .fresh r).w.body = ""
    ∧ (recepieHandler env s .fresh r).trace.any Event.isFetchHtml = false
    ∧ (recepieHandler env s .fresh r).trace.any Event.isSanitize = false
    ∧ (recepieHandler env s .fresh r).trace.any Event.isUploadFile = false
    ∧ (recepieHandler env s .fresh r).trace.any Event.isSendMessage = false
    ∧ (recepieHandler env s .fresh r).trace.any Event.isNewClient = false
    ∧ (recepieHandler env s .fresh r).exit = .returned := by
  simp [recepieHandler, hm, hs, hv, hd, ResponseWriter.WriteHeader, ResponseWriter.fresh,
    StatusBadRequest, Event.isFetchHtml, Event.isSanitize, Event.isUploadFile,
    Event.isSendMessage, Event.isNewClient]

theorem undecodable_body_400_witness :
    Split (HeaderGet (postReq "Bearer good" "not json").Header "Authorization") "Bearer "
        = ["", "good"]
    ∧ verifyToken demoWorld "good" demoServer.config.Supabase.JwtSecret = none
    ∧ demoWorld.jsonDecode (postReq "Bearer good" "not json").Body = .error "invalid character"
    ∧ (recepieHandler demoWorld demoServer .fresh (postReq "Bearer good" "not json")).w.status
        = 400 :=
  ⟨by decide, by decide, rfl,
    (undecodable_body_400 demoWorld demoServer (postReq "Bearer good" "not json") "" "good"
      "invalid character" (by decide) (by decide) (by decide) rfl).1⟩

/-- A fetch that fails at the transport level, while connecting or while the body
is read, or is answered with a status outside 200..299, makes fetchHtml return the
empty string and an error. -/
theorem fetchHtml_error_of_failure (env : World) (url : String)
    (hf : (∃ e, env.httpGet url = .error e)
      ∨ (∃ resp e, env.httpGet url = .ok resp ∧ resp.Body = .error e)
      ∨ (∃ resp, env.httpGet url = .ok resp
          ∧ ¬ (200 ≤ resp.StatusCode ∧ resp.StatusCode < 300))) :
    ∃ e, fetchHtml env url = ("", some e) := by
  rcases hf with ⟨e, he⟩ | ⟨resp, e, hr, hb⟩ | ⟨resp, hr, hcode⟩
  · exact ⟨e, by simp [fetchHtml, he]⟩
  · by_cases hc : resp.StatusCode = StatusOK
    · exact ⟨e, by simp [fetchHtml, hr, hc, hb]⟩
    · refine ⟨"http status is not a success: " ++ toString resp.StatusCode, ?_⟩
      simp only [fetchHtml, hr, hc, ne_eq, not_false_eq_true, if_true]
  · have hne : resp.StatusCode ≠ StatusOK := by
      intro h
      rw [h] at hcode
      exact hcode (by decide)
    refine ⟨"http status is not a success: " ++ toString resp.StatusCode, ?_⟩
    simp only [fetchHtml, hr, hne, ne_eq, not_false_eq_true, if_true]

/-- C6: a POST that passes token verification and body decoding, and whose URL
cannot be fetched (transport failure of the GET itself or while the body is read)
or answers with a status outside 200..299, gets an error from fetchHtml and is
answered 500; the sanitizer, the client construction, the upload and the model are
not called. -/
theorem failed_fetch_500 (env : World) (s : server) (r : Request)
    (pre token : String) (params : RecepieParams)
    (hm : r.Method = "POST")
    (hs : Split (HeaderGet r.Header "Authorization") "Bearer " = [pre, token])
    (hv : verifyToken env token s.config.Supabase.JwtSecret = none)
    (hd : env.jsonDecode r.Body = .ok params)
    (hf : (∃ e, env.httpGet params.Url = .error e)
      ∨ (∃ resp e, env.httpGet params.Url = .ok resp ∧ resp.Body = .error e)
      ∨ (∃ resp, env.httpGet params.Url = .ok resp
          ∧ ¬ (200 ≤ resp.StatusCode ∧ resp.StatusCode < 300))) :
    (fetchHtml env params.Url).2 ≠ none
    ∧ (recepieHandler env s .fresh r).w.status = 500
    ∧ (recepieHandler env s .fresh r).w.wroteHeader = true
    ∧ (recepieHandler env s .fresh r).w.body = ""
    ∧ (recepieHandler env s .fresh r).trace.any Event.isSanitize = false
    ∧ (recepieHandler env s .fresh r).trace.any Event.isNewClient = false
    ∧ (recepieHandler env s .fresh r).trace.any Event.isUploadFile = false
    ∧ (recepieHandler env s .fresh r).trace.any Event.isSendMessage = false
    ∧ (recepieHandler env s .fresh r).exit = .returned := by
  obtain ⟨e, he⟩ := fetchHtml_error_of_failure env params.Url hf
  simp [recepieHandler, hm, hs, hv, hd, he, ResponseWriter.WriteHeader, ResponseWriter.fresh,
    StatusInternalServerError, Event.isSanitize, Event.isNewClient, Event.isUploadFile,
    Event.isSendMessage]

theorem failed_fetch_500_witness :
    (demoWorld.jsonDecode (postReq "Bearer good" "500").Body = .ok ⟨"http://t/500"⟩
      ∧ demoWorld.httpGet "http://t/500" = .ok ⟨500, .ok "oops"⟩
      ∧ (fetchHtml demoWorld "http://t/500").2 ≠ none
      ∧ (recepieHandler demoWorld demoServer .fresh (postReq "Bearer good" "500")).w.status
          = 500)
    ∧ (bodyCutWorld.httpGet "http://t/page" = .ok ⟨200, .error "unexpected EOF"⟩
      ∧ (fetchHtml bodyCutWorld "http://t/page").2 ≠ none
      ∧ (recepieHandler bodyCutWorld demoServer .fresh (postReq "Bearer good" "page")).w.status
          = 500
      ∧ (recepieHandler bodyCutWorld demoServer .fresh (postReq "Bearer good" "page")).trace.any
          Event.isUploadFile = false) :=
  have h := failed_fetch_500 demoWorld demoServer (postReq "Bearer good" "500") "" "good"
    ⟨"http://t/500"⟩ (by decide) (by decide) (by decide) rfl
    (Or.inr (Or.inr ⟨⟨500, .ok "oops"⟩, rfl, by decide⟩))
  have g := failed_fetch_500 bodyCutWorld demoServer (postReq "Bearer good" "page") "" "good"
    ⟨"http://t/page"⟩ (by decide) (by decide) (by decide) rfl
    (Or.inr (Or.inl ⟨⟨200, .error "unexpected EOF"⟩, "unexpected EOF", rfl, rfl⟩))
  ⟨⟨rfl, rfl, h.1, h.2.1⟩, ⟨rfl, g.1, g.2.1, g.2.2.2.2.2.2.1⟩⟩

/-- C7, as stated, fails: a response with status 201, a 2xx status, whose body
`made` reads without error makes fetchHtml return the empty string and an error. -/
theorem fetchHtml_201_is_error :
    demoWorld.httpGet "http://t/201" = .ok ⟨201, .ok "made"⟩
    ∧ ((200 : Int) ≤ 201 ∧ (201 : Int) < 300)
    ∧ fetchHtml demoWorld "http://t/201" = ("", some "http status is not a success: 201") :=
  ⟨rfl, by decide, by decide⟩

/-- C7, amended: for a response whose body `b` reads without error, fetchHtml
returns exactly `b` and a nil error when the status is 200, and only then. -/
theorem fetchHtml_ok_iff_200 (env : World) (url : String) (resp : Response) (b : String)
    (hg : env.httpGet url = .ok resp) (hb : resp.Body = .ok b) :
    fetchHtml env url = (b, none) ↔ resp.StatusCode = 200 := by
  by_cases hc : resp.StatusCode = 200
  · simp [fetchHtml, hg, hb, hc, StatusOK]
  · simp [fetchHtml, hg, hc, StatusOK]

theorem fetchHtml_ok_iff_200_witness :
    demoWorld.httpGet "http://t/page" = .ok ⟨200, .ok "<h1>OK</h1>"⟩
    ∧ fetchHtml demoWorld "http://t/page" = ("<h1>OK</h1>", none) :=
  ⟨rfl, (fetchHtml_ok_iff_200 demoWorld "http://t/page" ⟨200, .ok "<h1>OK</h1>"⟩ "<h1>OK</h1>"
    rfl rfl).mpr rfl⟩

/-! ## Extraction -/

/-- Whenever the upload returns a nil file, the handler panics on `fileData.URI`
before any status is written; the model is not called. -/
theorem nil_file_panics (env : World) (s : server) (r : Request)
    (pre token html : String) (params : RecepieParams) (client : Client)
    (uerr : Option GoError)
    (hm : r.Method = "POST")
    (hs : Split (HeaderGet r.Header "Authorization") "Bearer " = [pre, token])
    (hv : verifyToken env token s.config.Supabase.JwtSecret = none)
    (hd : env.jsonDecode r.Body = .ok params)
    (hf : fetchHtml env params.Url = (html, none))
    (hc : env.newClient s.config.GoogleAI.APIKey = .ok client)
    (hu : env.uploadFile client "" (env.sanitize html) ⟨"recepieHtml", "text/plain"⟩
      = (none, uerr)) :
    (recepieHandler env s .fresh r).w = .fresh
    ∧ (recepieHandler env s .fresh r).trace.any Event.isSendMessage = false
    ∧ (recepieHandler env s .fresh r).exit
        = .panicked "runtime error: invalid memory address or nil pointer dereference" := by
  cases uerr <;>
    simp [recepieHandler, hm, hs, hv, hd, hf, hc, hu, initializeGenAiClient, uploadToGemini,
      Event.isSendMessage]

/-- C8, on the code: with every earlier stage succeeding and the upload failing
(nil file, error `503 Service Unavailable`), the handler logs the error and then
panics; no status, 500 or other, is written, and the model is not called. -/
theorem failed_upload_panics_without_status :
    (recepieHandler uploadDownWorld demoServer .fresh (postReq "Bearer good" "page")).exit
        = .panicked "runtime error: invalid memory address or nil pointer dereference"
    ∧ (recepieHandler uploadDownWorld demoServer .fresh (postReq "Bearer good" "page")).w.wroteHeader
        = false
    ∧ (recepieHandler uploadDownWorld demoServer .fresh (postReq "Bearer good" "page")).w.status
        ≠ 500
    ∧ Event.logf "Error uploading file: 503 Service Unavailable"
        ∈ (recepieHandler uploadDownWorld demoServer .fresh (postReq "Bearer good" "page")).trace
    ∧ (recepieHandler uploadDownWorld demoServer .fresh (postReq "Bearer good" "page")).trace.any
        Event.isSendMessage = false := by
  decide

/-- C9: when the request reaches the completion step and SendMessage returns an
error, the handler ends the whole process through log.Fatalf; the response writer
is left untouched, so neither status 500 nor anything else is written. -/
theorem failed_completion_is_fatal (env : World) (s : server) (r : Request)
    (pre token html : String) (params : RecepieParams) (client : Client)
    (file : File) (uerr : Option GoError) (err : GoError)
    (hm : r.Method = "POST")
    (hs : Split (HeaderGet r.Header "Authorization") "Bearer " = [pre, token])
    (hv : verifyToken env token s.config.Supabase.JwtSecret = none)
    (hd : env.jsonDecode r.Body = .ok params)
    (hf : fetchHtml env params.Url = (html, none))
    (hc : env.newClient s.config.GoogleAI.APIKey = .ok client)
    (hu : env.uploadFile client "" (env.sanitize html) ⟨"recepieHtml", "text/plain"⟩
      = (some file, uerr))
    (hsend : env.sendMessage ⟨(initializeGenAi s client).1, seedHistory [file.URI]⟩
      (Part.Text "Do") = .error err) :
    (recepieHandler env s .fresh r).exit = .fatal ("Error sending message: " ++ err)
    ∧ (recepieHandler env s .fresh r).w = .fresh
    ∧ (recepieHandler env s .fresh r).w.wroteHeader = false
    ∧ (recepieHandler env s .fresh r).w.status ≠ 500 := by
  have hw : (recepieHandler env s .fresh r).exit = .fatal ("Error sending message: " ++ err)
      ∧ (recepieHandler env s .fresh r).w = .fresh := by
    cases uerr <;>
      simp [recepieHandler, hm, hs, hv, hd, hf, hc, hu, initializeGenAiClient, uploadToGemini,
        initializeGenAi] at hsend ⊢ <;> simp [hsend]
  refine ⟨hw.1, hw.2, ?_, ?_⟩
  · rw [hw.2]; rfl
  · rw [hw.2]; decide

theorem failed_completion_is_fatal_witness :
    modelDownWorld.sendMessage
        ⟨(initializeGenAi demoServer ⟨"GOOGLEAPIKEY"⟩).1, seedHistory ["https://files/1"]⟩
        (Part.Text "Do") = .error "deadline exceeded"
    ∧ (recepieHandler modelDownWorld demoServer .fresh (postReq "Bearer good" "page")).exit
        = .fatal "Error sending message: deadline exceeded"
    ∧ (recepieHandler modelDownWorld demoServer .fresh (postReq "Bearer good" "page")).w.wroteHeader
        = false :=
  have h := failed_completion_is_fatal modelDownWorld demoServer (postReq "Bearer good" "page")
    "" "good" "<h1>OK</h1>" ⟨"http://t/page"⟩ ⟨"GOOGLEAPIKEY"⟩ ⟨"files/1", "https://files/1"⟩
    none "deadline exceeded" (by decide) (by decide) (by decide) rfl (by decide) rfl rfl rfl
  ⟨rfl, h.1, h.2.2.1⟩

/-! ## The response loop -/

/-- Once the status has gone out, a further turn of the loop only appends to the
body. -/
theorem writePart_of_wrote (w : ResponseWriter) (p : Part) (hw : w.wroteHeader = true) :
    (writePart w p).wroteHeader = true
    ∧ (writePart w p).status = w.status
    ∧ (writePart w p).sentHeader = w.sentHeader
    ∧ (writePart w p).body = w.body ++ SprintfV p := by
  simp [writePart, ResponseWriter.Write, ResponseWriter.WriteHeader, ResponseWriter.HeaderSet, hw]

theorem foldl_writePart_of_wrote (ps : List Part) (w : ResponseWriter)
    (hw : w.wroteHeader = true) :
    (ps.foldl writePart w).status = w.status
    ∧ (ps.foldl writePart w).sentHeader = w.sentHeader
    ∧ (ps.foldl writePart w).body = (ps.map SprintfV).foldl (fun r x => r ++ x) w.body := by
  induction ps generalizing w with
  | nil => simp
  | cons p ps ih =>
    obtain ⟨h1, h2, h3, h4⟩ := writePart_of_wrote w p hw
    obtain ⟨i1, i2, i3⟩ := ih (writePart w p) h1
    simp only [List.foldl_cons, List.map_cons]
    exact ⟨i1.trans h2, i2.trans h3, by rw [i3, h4]⟩

/-- The first turn of the loop on a fresh writer sends status 200 with the JSON
content type and writes the first part. -/
theorem writePart_fresh (p : Part) :
    (writePart .fresh p).wroteHeader = true
    ∧ (writePart .fresh p).status = 200
    ∧ (writePart .fresh p).sentHeader = [("Content-Type", "application/json")]
    ∧ (writePart .fresh p).body = "" ++ SprintfV p := by
  simp [writePart, ResponseWriter.Write, ResponseWriter.WriteHeader, ResponseWriter.HeaderSet,
    ResponseWriter.fresh, StatusOK]

/-- The loop over one or more parts, from a fresh writer. -/
theorem foldl_writePart_fresh (ps : List Part) (hne : ps ≠ []) :
    (ps.foldl writePart .fresh).status = 200
    ∧ (ps.foldl writePart .fresh).sentHeader = [("Content-Type", "application/json")]
    ∧ (ps.foldl writePart .fresh).body = String.join (ps.map SprintfV) := by
  cases ps with
  | nil => exact absurd rfl hne
  | cons p ps =>
    obtain ⟨h1, h2, h3, h4⟩ := writePart_fresh p
    obtain ⟨i1, i2, i3⟩ := foldl_writePart_of_wrote ps (writePart .fresh p) h1
    simp only [List.foldl_cons, List.map_cons, String.join]
    exact ⟨i1.trans h2, i2.trans h3, by rw [i3, h4]⟩

/-- C10: when every stage succeeds and the first candidate of the answer carries
one or more parts, the response has status 200 and Content-Type application/json,
and its body is the in-order concatenation of the `%v` text of the parts; a single
text part is returned as it is. -/
theorem success_200_concatenates_parts (env : World) (s : server) (r : Request)
    (pre token html : String) (params : RecepieParams) (client : Client)
    (file : File) (uerr : Option GoError) (resp : GenerateContentResponse)
    (candidate : Candidate) (rest : List Candidate) (content : Content)
    (hm : r.Method = "POST")
    (hs : Split (HeaderGet r.Header "Authorization") "Bearer " = [pre, token])
    (hv : verifyToken env token s.config.Supabase.JwtSecret = none)
    (hd : env.jsonDecode r.Body = .ok params)
    (hf : fetchHtml env params.Url = (html, none))
    (hc : env.newClient s.config.GoogleAI.APIKey = .ok client)
    (hu : env.uploadFile client "" (env.sanitize html) ⟨"recepieHtml", "text/plain"⟩
      = (some file, uerr))
    (hsend : env.sendMessage ⟨(initializeGenAi s client).1, seedHistory [file.URI]⟩
      (Part.Text "Do") = .ok resp)
    (hcand : resp.Candidates = candidate :: rest)
    (hcontent : candidate.Content = some content)
    (hparts : content.Parts ≠ []) :
    (recepieHandler env s .fresh r).exit = .returned
    ∧ (recepieHandler env s .fresh r).w.status = 200
    ∧ (recepieHandler env s .fresh r).w.sentHeader = [("Content-Type", "application/json")]
    ∧ (recepieHandler env s .fresh r).w.body = String.join (content.Parts.map SprintfV)
    ∧ (∀ t, content.Parts = [Part.Text t] → (recepieHandler env s .fresh r).w.body = t) := by
  have hw : (recepieHandler env s .fresh r).exit = .returned
      ∧ (recepieHandler env s .fresh r).w = content.Parts.foldl writePart .fresh := by
    cases uerr <;>
      simp [recepieHandler, hm, hs, hv, hd, hf, hc, hu, initializeGenAiClient, uploadToGemini,
        initializeGenAi] at hsend ⊢ <;> simp [hsend, hcand, hcontent]
  obtain ⟨h1, h2, h3⟩ := foldl_writePart_fresh content.Parts hparts
  refine ⟨hw.1, ?_, ?_, ?_, ?_⟩
  · rw [hw.2]; exact h1
  · rw [hw.2]; exact h2
  · rw [hw.2]; exact h3
  · intro t ht
    rw [hw.2, h3, ht]
    simp [String.join, SprintfV]

theorem success_200_concatenates_parts_witness :
    demoWorld.sendMessage
        ⟨(initializeGenAi demoServer ⟨"GOOGLEAPIKEY"⟩).1, seedHistory ["https://files/1"]⟩
        (Part.Text "Do") = .ok ⟨[⟨some ⟨"model", [Part.Text saltJson]⟩⟩]⟩
    ∧ (recepieHandler demoWorld demoServer .fresh (postReq "Bearer good" "page")).w.status = 200
    ∧ (recepieHandler demoWorld demoServer .fresh (postReq "Bearer good" "page")).w.sentHeader
        = [("Content-Type", "application/json")]
    ∧ (recepieHandler demoWorld demoServer .fresh (postReq "Bearer good" "page")).w.body
        = "\x7b\"ingredients\":[\x7b\"name\":\"Salt\",\"amount\":\"5g\"\x7d]\x7d" :=
  have h := success_200_concatenates_parts demoWorld demoServer (postReq "Bearer good" "page")
    "" "good" "<h1>OK</h1>" ⟨"http://t/page"⟩ ⟨"GOOGLEAPIKEY"⟩ ⟨"files/1", "https://files/1"⟩
    none ⟨[⟨some ⟨"model", [Part.Text saltJson]⟩⟩]⟩ ⟨some ⟨"model", [Part.Text saltJson]⟩⟩ []
    ⟨"model", [Part.Text saltJson]⟩
    (by decide) (by decide) (by decide) rfl (by decide) rfl rfl rfl rfl rfl (by decide)
  ⟨rfl, h.2.1, h.2.2.1, h.2.2.2.2 saltJson rfl⟩

end Recepie
